import Mathlib

/-!
Verification development for the twspace-dl downloader
(single source file src/twspace_dl/main.py).

The Python code is shallowly embedded: strings are modelled as `List Char`
(with `String` wrappers where convenient), JSON values as the inductive
`JVal`, Python exceptions as the inductive `PyErr` together with
`Except PyErr`, and the network as an explicit environment `Env` whose
responses are consumed by the embedded methods.  Methods that perform
HTTP requests additionally record the requests they issue in a trace, so
that claims of the form "X happens before any request to Y" become
statements about the trace.

Conventions used throughout:
* `re.sub(r"(?=tok)", ins, s)` for a literal token `tok` is modelled by
  `subBefore`: a left-to-right scan that inserts `ins` in front of every
  position at which `tok` starts (the zero-width lookahead consumes
  nothing, so the scan advances one character after an insertion, exactly
  as Python does).
* `str.replace(old, new)` is modelled by `pyReplace`: a left-to-right
  scan replacing non-overlapping occurrences.  (Python's special
  behaviour for an empty `old` is not reproduced; the code only ever
  replaces the non-empty literal "dynamic".)
* `str.removesuffix(suf)` is modelled by `removesuffix`.
* `os.path.join("tmp", x)` is modelled as `"tmp/" ++ x` (POSIX join).
* `datetime.fromtimestamp(... ).strftime("%Y-%m-%d")` is timezone
  dependent; it is abstracted as an explicit rendering argument
  `dateRender : Int -> String` applied to the raw millisecond value.
-/

/-- `startsWith pat l` is true when `pat` is a prefix of `l`
(the building block for all the literal-regex scans below). -/
def startsWith : List Char → List Char → Bool
  | [], _ => true
  | _ :: _, [] => false
  | p :: ps, c :: cs => p == c && startsWith ps cs

/-- Model of `str.removesuffix`: drop `suf` from the end of `l` when it
is a suffix, otherwise return `l` unchanged. -/
def removesuffix (l suf : List Char) : List Char :=
  if startsWith suf.reverse l.reverse then l.take (l.length - suf.length) else l

/-- Model of `re.sub(r"(?=tok)", ins, s)` for a literal token `tok`:
insert `ins` immediately before every position where `tok` starts.  The
replacement text is emitted, never rescanned, and after a (zero-width)
match the scan advances by one character, as in Python. -/
def subBefore (tok ins : List Char) : List Char → List Char
  | [] => []
  | c :: cs =>
    if startsWith tok (c :: cs) then ins ++ c :: subBefore tok ins cs
    else c :: subBefore tok ins cs

/-- Model of `str.replace(old, new)` (all non-overlapping occurrences,
left to right).  Python's behaviour for an empty `old` (inserting `new`
between all characters) is not reproduced; the source only replaces the
non-empty literal "dynamic". -/
def pyReplace (old new : List Char) : List Char → List Char
  | [] => []
  | c :: cs =>
    if 0 < old.length ∧ startsWith old (c :: cs) = true then
      new ++ pyReplace old new (cs.drop (old.length - 1))
    else c :: pyReplace old new cs
termination_by l => l.length
decreasing_by
  · simp only [List.length_drop, List.length_cons]
    omega
  · simp only [List.length_cons]
    omega

/-- `\w` of the Python regexes, restricted to ASCII
(the identifiers scraped by the code are ASCII). -/
def isWordChar (c : Char) : Bool :=
  (('a' ≤ c && c ≤ 'z') || ('A' ≤ c && c ≤ 'Z') || ('0' ≤ c && c ≤ '9') || c == '_')

/-- Model of Python `str.splitlines` (restricted to the separator `\n`,
the only one occurring in the modelled bodies): split on newlines, with
no trailing empty part for a trailing newline. -/
def pySplitlines (l : List Char) : List (List Char) :=
  if l = [] then []
  else if l.getLast? = some '\n' then (l.splitOn '\n').dropLast
  else l.splitOn '\n'

/-- JSON values, as returned by `response.json()`.  Objects are encoded
by the `jobjCons`/`jobjNil` constructors (an association chain) so that
equality stays derivable. -/
inductive JVal where
  | jnull
  | jbool (b : Bool)
  | jstr (s : String)
  | jnum (n : Int)
  | jobjNil
  | jobjCons (key : String) (val : JVal) (rest : JVal)
deriving DecidableEq, Repr

/-- The Python exceptions that the embedded code can raise. -/
inductive PyErr where
  | keyError (k : String)
  | typeError
  | valueError (msg : String)
  | indexError
  | attributeError
  | jsonDecodeError
  | runtimeErrorJson (raw : JVal)
  | runtimeErrorMsg (msg : String)
  | fileNotFoundError (msg : String)
deriving DecidableEq, Repr

/-- Key lookup in an object chain (`None` when absent or not an object). -/
def jlookup : JVal → String → Option JVal
  | .jobjCons k v rest, key => if k = key then some v else jlookup rest key
  | _, _ => none

/-- `v[k]` on a parsed JSON value: `KeyError` when the key is absent from
an object, `TypeError` when `v` is not an object (e.g. indexing a string
with a string, as Python raises). -/
def jget (v : JVal) (k : String) : Except PyErr JVal :=
  match v with
  | .jobjNil => .error (.keyError k)
  | .jobjCons key val rest =>
    match jlookup (.jobjCons key val rest) k with
    | some x => .ok x
    | none => .error (.keyError k)
  | _ => .error .typeError

/-- Chained indexing `v[k1][k2]...`. -/
def jpath (v : JVal) (ks : List String) : Except PyErr JVal :=
  match ks with
  | [] => .ok v
  | k :: rest =>
    match jget v k with
    | .ok x => jpath x rest
    | .error e => .error e

/-- `defaultdict(str, root)[k]`: a missing key yields the empty string. -/
def ddget (root : JVal) (k : String) : JVal :=
  (jlookup root k).getD (.jstr "")

/-- `isObj v` holds when `v` is a JSON object (a `dict` in Python). -/
def isObj : JVal → Bool
  | .jobjNil => true
  | .jobjCons _ _ _ => true
  | _ => false

/-- Python `str(v)` for the scalar JSON values (container values are
rendered as a placeholder; no modelled claim depends on the textual
repr of a container). -/
def pyStrOf : JVal → String
  | .jstr s => s
  | .jnum n => toString n
  | .jnull => "None"
  | .jbool b => if b then "True" else "False"
  | .jobjNil => "\x7b\x7d"
  | .jobjCons _ _ _ => "<dict>"

/-- String concatenation `a + b` where `a` is a `str`: `TypeError`
unless the other operand is also a `str`. -/
def pyAddStr (a : String) (b : JVal) : Except PyErr String :=
  match b with
  | .jstr s => .ok (a ++ s)
  | _ => .error .typeError

/-- Digits-only parse helper for `int(...)` of a string. -/
def digitsVal : List Char → Option Nat
  | [] => none
  | l =>
    if l.all (fun c => c.isDigit) then
      some (l.foldl (fun acc c => 10 * acc + (c.toNat - '0'.toNat)) 0)
    else none

/-- Python `int(v)`: numbers pass through, strings are parsed
(`ValueError` on a malformed literal; ASCII digits with an optional
sign), anything else is a `TypeError`. -/
def pyInt (v : JVal) : Except PyErr Int :=
  match v with
  | .jnum n => .ok n
  | .jbool b => .ok (if b then 1 else 0)
  | .jstr s =>
    match s.data with
    | '-' :: ds =>
      match digitsVal ds with
      | some n => .ok (-(n : Int))
      | none => .error (.valueError "invalid literal for int")
    | ds =>
      match digitsVal ds with
      | some n => .ok (n : Int)
      | none => .error (.valueError "invalid literal for int")
  | _ => .error .typeError

/-- Literal token "chunk" of the playlist rewrite regex `(?=chunk)`. -/
def chunkTok : List Char := "chunk".data

/-- Literal "dynamic" replaced in the master-URL derivation. -/
def dynTok : List Char := "dynamic".data

/-- Literal "master" substituted for "dynamic". -/
def masterTok : List Char := "master".data

/-- The fixed query suffix "?type=live" removed from the dynamic URL. -/
def qSuffix : List Char := "?type=live".data

/-- The trailing playlist filename removed from the master URL before
prefixing chunk references. -/
def mplTok : List Char := "master_playlist.m3u8".data

/-- Literal "spaces/" of the id-extraction regex `(?<=spaces/)\w*`. -/
def spacesTok : List Char := "spaces/".data

/-- Literal "gt=" of the guest-token regex `(?<=gt\=)\d{19}`. -/
def gtTok : List Char := "gt=".data

/-- The fields tracked by `FormatInfo` (a dict in the source, with the
six keys initialized to empty strings and overwritten by `set_info`). -/
structure FormatInfoS where
  id : JVal
  url : JVal
  title : JVal
  creator_name : JVal
  creator_screen_name : JVal
  start_date : JVal
deriving DecidableEq, Repr

/-- `FormatInfo.DEFAULT_FNAME_FORMAT`. -/
def DEFAULT_FNAME_FORMAT : String := "[%(creator_name)s]%(title)s-%(id)s"

/-- `FormatInfo.set_info(metadata)`: walk
`metadata["data"]["audioSpace"]["metadata"]`, wrap it in
`defaultdict(str, ...)` and populate the six fields in source order.
A key missing from the defaultdict yields the empty string, but the
nested lookups under `creator_results` and the `int(...)` conversion of
`started_at` are performed on whatever the default produced, exactly as
in the source.  `dateRender` abstracts the timezone-dependent
`datetime.fromtimestamp(millis / 1000).strftime("%Y-%m-%d")`, applied
to the raw millisecond value. -/
def set_info (dateRender : Int → String) (metadata : JVal) : Except PyErr FormatInfoS := do
  let mdNode ← jpath metadata ["data", "audioSpace", "metadata"]
  if isObj mdNode = false then
    throw .typeError
  else
    let idv := ddget mdNode "rest_id"
    let url ← pyAddStr "https://twitter.com/spaces/" idv
    let title := ddget mdNode "title"
    let cr ← jget (ddget mdNode "creator_results") "result"
    let legacy ← jget cr "legacy"
    let name ← jget legacy "name"
    let cr2 ← jget (ddget mdNode "creator_results") "result"
    let legacy2 ← jget cr2 "legacy"
    let screen ← jget legacy2 "screen_name"
    let millis ← pyInt (ddget mdNode "started_at")
    pure { id := idv, url := .jstr url, title := title, creator_name := name,
           creator_screen_name := screen, start_date := .jstr (dateRender millis) }

/-- The `bad_chars` string of `FormatInfo.sterilize_fn`. -/
def BAD_CHARS : List Char := "<>:\"/\\|?*".data

/-- `FormatInfo.sterilize_fn`: for each bad character the source
evaluates `filename.replace(char, "_")` but discards the result (strings
are immutable), and finally returns `filename`. -/
def sterilize_fn (filename : String) : String :=
  BAD_CHARS.foldl
    (fun fn ch =>
      let _ := pyReplace [ch] ['_'] fn.data
      fn)
    filename

/-- Key lookup in a `FormatInfoS`, as `format_str % self` performs on the
dict (a key that is not present raises `KeyError`). -/
def formatInfoLookup (fi : FormatInfoS) : String → Option JVal := fun k =>
  if k = "id" then some fi.id
  else if k = "url" then some fi.url
  else if k = "title" then some fi.title
  else if k = "creator_name" then some fi.creator_name
  else if k = "creator_screen_name" then some fi.creator_screen_name
  else if k = "start_date" then some fi.start_date
  else none

/-- Python `%`-formatting with a mapping, restricted to the `%(key)s`
and `%%` directives (the only ones in the formats the source builds);
any other conversion is rejected with `ValueError`. -/
def pyFormat (lookup : String → Option JVal) : List Char → Except PyErr (List Char)
  | [] => .ok []
  | '%' :: '%' :: rest =>
    match pyFormat lookup rest with
    | .ok t => .ok ('%' :: t)
    | .error e => .error e
  | '%' :: '(' :: rest =>
    let key : List Char := rest.takeWhile (fun c => !(c == ')'))
    match h : rest.drop key.length with
    | ')' :: 's' :: rest2 =>
      match lookup (String.mk key) with
      | some v =>
        match pyFormat lookup rest2 with
        | .ok t => .ok ((pyStrOf v).data ++ t)
        | .error e => .error e
      | none => .error (.keyError (String.mk key))
    | _ => .error (.valueError "unsupported format")
  | '%' :: _ :: _ => .error (.valueError "unsupported format character")
  | ['%'] => .error (.valueError "incomplete format")
  | c :: rest =>
    match pyFormat lookup rest with
    | .ok t => .ok (c :: t)
    | .error e => .error e
termination_by l => l.length
decreasing_by
  · simp only [List.length_cons]
    omega
  · have hlen : (rest.drop key.length).length = rest2.length + 2 := by
      rw [h]; simp
    have : rest2.length + 2 ≤ rest.length := by
      rw [List.length_drop] at hlen
      omega
    simp only [List.length_cons]
    omega
  · simp only [List.length_cons]
    omega

/-- `FormatInfo.format(format_str)`, i.e. `format_str % self`. -/
def FormatInfo_format (fi : FormatInfoS) (fmt : String) : Except PyErr String :=
  match pyFormat (formatInfoLookup fi) fmt.data with
  | .ok l => .ok (String.mk l)
  | .error e => .error e

/-- First match of `re.findall(r"(?<=spaces/)\w*", url)`: the earliest
position preceded by the literal "spaces/" yields the (possibly empty)
run of word characters that follows; no such position yields `none`
(an empty `findall` result). -/
def firstSpaceId : List Char → Option (List Char)
  | [] => none
  | c :: cs =>
    if startsWith spacesTok (c :: cs) then
      some (((c :: cs).drop spacesTok.length).takeWhile isWordChar)
    else firstSpaceId cs

/-- The attributes `TwspaceDL.__init__` assigns from its arguments. -/
structure TwspaceDLInit where
  id : String
  format_str : String
  threads : Nat
deriving DecidableEq, Repr

/-- `TwspaceDL.__init__(url, threads, format_str)`: an empty url gives
the `no_id`/`no_info` fallback; otherwise the id is
`re.findall(r"(?<=spaces/)\w*", url)[0]`, so an empty `findall` result
raises an uncaught `IndexError`.  `format_str or DEFAULT_FNAME_FORMAT`
is modelled with the empty string as the falsy case. -/
def TwspaceDL_init (url : String) (threads : Nat) (format_str : String) :
    Except PyErr TwspaceDLInit :=
  if url = "" then .ok { id := "no_id", format_str := "no_info", threads := threads }
  else
    match firstSpaceId url.data with
    | none => .error .indexError
    | some s =>
      .ok { id := String.mk s,
            format_str := if format_str = "" then DEFAULT_FNAME_FORMAT else format_str,
            threads := threads }

/-- First match of `re.findall(r"(?<=gt\=)\d{19}", line)`: the earliest
position preceded by "gt=" and followed by at least 19 digits yields
those 19 digits. -/
def findGuestToken : List Char → Option (List Char)
  | [] => none
  | c :: cs =>
    if startsWith gtTok (c :: cs)
        && (((c :: cs).drop gtTok.length).take 19).length == 19
        && (((c :: cs).drop gtTok.length).take 19).all (fun d => d.isDigit) then
      some (((c :: cs).drop gtTok.length).take 19)
    else findGuestToken cs

/-- `TwspaceDL._guest_token` applied to the landing-page text: take the
last line (`IndexError` on an empty line list) and scrape the token
(`IndexError` when the regex finds nothing). -/
def guest_token_of (landingText : String) : Except PyErr String :=
  match (pySplitlines landingText.data).getLast? with
  | none => .error .indexError
  | some lastLine =>
    match findGuestToken lastLine with
    | some t => .ok (String.mk t)
    | none => .error .indexError

/-- Position just after the first occurrence of `pat` (used for the
authority part of `urlparse`). -/
def afterSubstr (pat : List Char) : List Char → Option (List Char)
  | [] => none
  | c :: cs =>
    if startsWith pat (c :: cs) then some ((c :: cs).drop pat.length)
    else afterSubstr pat cs

/-- `urlparse(u).netloc`, restricted to URLs with an explicit scheme:
the text between "://" and the next path/query/fragment delimiter. -/
def netlocOf (u : String) : String :=
  match afterSubstr "://".data u.data with
  | some rest => String.mk (rest.takeWhile (fun c => !(c == '/' || c == '?' || c == '#')))
  | none => ""

/-- `TwspaceDL.master_url` as a textual transform of the dynamic URL:
`dyn_url.removesuffix("?type=live").replace("dynamic", "master")`. -/
def master_url_of (dyn : List Char) : List Char :=
  pyReplace dynTok masterTok (removesuffix dyn qSuffix)

/-- String-level wrapper of `master_url_of`. -/
def masterUrlOfS (s : String) : String := String.mk (master_url_of s.data)

/-- The pure core of `TwspaceDL.playlist_text`: prefix every chunk-file
token of the fetched body with the master URL stripped of its trailing
"master_playlist.m3u8", via `re.sub(r"(?=chunk)", prefix, body)`. -/
def playlist_transform (masterUrl body : List Char) : List Char :=
  subBefore chunkTok (removesuffix masterUrl mplTok) body

/-- The `TwspaceDL.metadata` body after the HTTP response has been
parsed: probe `metadata["data"]["audioSpace"]["metadata"]["media_key"]`;
a `KeyError` is turned into `RuntimeError(metadata)` carrying the raw
response, any other outcome returns the parsed response unchanged. -/
def metadataProperty (resp : JVal) : Except PyErr JVal :=
  match jpath resp ["data", "audioSpace", "metadata", "media_key"] with
  | .ok _ => .ok resp
  | .error (.keyError _) => .error (.runtimeErrorJson resp)
  | .error e => .error e

/-- `TwspaceDL.dyn_url` given the (already fetched) metadata and the
live-status response (`none` models a body that fails to parse as
JSON).  The second component is `some mediaKey` exactly when the HTTP
GET of the live-status endpoint was issued: the `state == "Ended"`
check raises `ValueError("Space Ended")` before that request. -/
def dyn_url_model (md : JVal) (live : Option JVal) : Except PyErr JVal × Option String :=
  match jpath md ["data", "audioSpace", "metadata", "state"] with
  | .error e => (.error e, none)
  | .ok st =>
    if st = .jstr "Ended" then (.error (.valueError "Space Ended"), none)
    else
      match jpath md ["data", "audioSpace", "metadata", "media_key"] with
      | .error e => (.error e, none)
      | .ok mk =>
        match mk with
        | .jstr mks =>
          match live with
          | none => (.error (.runtimeErrorMsg "Space isn\x27t available"), some mks)
          | some j =>
            match jpath j ["source", "location"] with
            | .ok loc => (.ok loc, some mks)
            | .error e => (.error e, some mks)
        | _ => (.error .typeError, none)

/-- `.removesuffix(...)` on the value `dyn_url` returned: an
`AttributeError` unless it is a string. -/
def master_url_of_dyn (d : JVal) : Except PyErr String :=
  match d with
  | .jstr s => .ok (masterUrlOfS s)
  | _ => .error .attributeError

/-- The resolved master URL: the `-f`/`--from-master-url` override (the
`__main__` block assigns `twspace_dl.master_url = args.from_master_url`,
so the cached property is never computed) short-circuits the whole
dynamic-URL derivation; otherwise the master URL is derived from
`dyn_url`.  The second component records the live-status request as in
`dyn_url_model`. -/
def master_url_resolved (override : Option String) (md : JVal) (live : Option JVal) :
    Except PyErr String × Option String :=
  match override with
  | some u => (.ok u, none)
  | none =>
    match dyn_url_model md live with
    | (.ok d, f) => (master_url_of_dyn d, f)
    | (.error e, f) => (.error e, f)

/-- Metadata resolution followed by the first derivation step: when
`metadata` raises, `dyn_url` never runs and the live-status endpoint is
never fetched. -/
def resolveThenDerive (resp : JVal) (live : Option JVal) : Except PyErr JVal × Option String :=
  match metadataProperty resp with
  | .error e => (.error e, none)
  | .ok md => dyn_url_model md live

/-- The two job lists built by `TwspaceDL.download`. -/
structure DownloadPlan where
  parallel : List (List String)
  sequential : List (List String)
deriving DecidableEq, Repr

/-- `cmd_base` of `TwspaceDL.download` (the single-quote characters of
the f-strings are written as `\x27`). -/
def cmd_base (title creator idStr fn : String) : List String :=
  ["ffmpeg", "-y", "-stats", "-v", "warning", "-i",
   "-c", "copy",
   "-metadata", "title=\x27" ++ title ++ "\x27",
   "-metadata", "author=\x27" ++ creator ++ "\x27",
   "-metadata", "episode_id=\x27" ++ idStr ++ "\x27",
   "tmp/" ++ fn ++ ".m4a"]

/-- `cmd_old`: `[cmd_base[0]] + ["-protocol_whitelist", "file,https,tls,tcp"]
+ cmd_base[1:6] + [os.path.join("tmp", filename + ".m3u8")] + cmd_base[6:]`. -/
def cmd_old (title creator idStr fn : String) : List String :=
  (cmd_base title creator idStr fn).take 1
    ++ ["-protocol_whitelist", "file,https,tls,tcp"]
    ++ (((cmd_base title creator idStr fn).drop 1).take 5)
    ++ ["tmp/" ++ fn ++ ".m3u8"]
    ++ (cmd_base title creator idStr fn).drop 6

/-- `cmd_new`: `cmd_base[:6] + [self.dyn_url] + cmd_base[6:-1]
+ [os.path.join("tmp", f"{filename}_new.m4a")]`. -/
def cmd_new (title creator idStr fn dyn : String) : List String :=
  (cmd_base title creator idStr fn).take 6
    ++ [dyn]
    ++ (((cmd_base title creator idStr fn).drop 6).dropLast)
    ++ ["tmp/" ++ fn ++ "_new.m4a"]

/-- `cmd_final`: `cmd_base[:6] + ["concat:" + join("tmp", f"{filename}.m4a")
+ "|" + join("tmp", f"{filename}_new.m4a")] + cmd_base[6:-1]
+ [f"{filename}.m4a"]`. -/
def cmd_final (title creator idStr fn : String) : List String :=
  (cmd_base title creator idStr fn).take 6
    ++ ["concat:" ++ ("tmp/" ++ fn ++ ".m4a") ++ "|" ++ ("tmp/" ++ fn ++ "_new.m4a")]
    ++ (((cmd_base title creator idStr fn).drop 6).dropLast)
    ++ [fn ++ ".m4a"]

/-- The branch on `state` at the end of `TwspaceDL.download`: the
`"Running"` state launches `cmd_new` and `cmd_old` on the worker pool
followed by the sequential `cmd_final`; every other state runs `cmd_old`
alone (the tuple handed to `executor.map` is `(cmd_new, cmd_old)`, in
that order).  A pure function of its inputs, so the plan is the same on
every run with the same resolved values. -/
def downloadPlan (state title creator idStr fn dyn : String) : DownloadPlan :=
  if state = "Running" then
    { parallel := [cmd_new title creator idStr fn dyn, cmd_old title creator idStr fn],
      sequential := [cmd_final title creator idStr fn] }
  else
    { parallel := [], sequential := [cmd_old title creator idStr fn] }

/-- The HTTP requests the downloader can issue. -/
inductive Request where
  | landing
  | audioSpaceApi (id : String)
  | liveStatus (mediaKey : String)
  | masterPl (url : String)
  | chunkPl (url : String)
deriving DecidableEq, Repr

/-- The network environment of one run: the landing-page text, the
successive bodies served by the AudioSpaceById endpoint (the `metadata`
property is not cached, so each access consumes the next response;
`none` models a body that is not JSON), the live-status body and the
master/chunk playlist bodies. -/
structure Env where
  landingText : String
  api : Nat → Option JVal
  live : Option JVal
  masterBody : String
  chunkBody : String

/-- The mutable part of a `TwspaceDL` instance: the values memoized by
`functools.cached_property` (`_guest_token`, `dyn_url`, `master_url`,
`filename` — but not `metadata`, which is a plain `property`), the
number of AudioSpaceById accesses made so far, and the trace of issued
requests. -/
structure DLState where
  guestToken : Option String
  dynUrlC : Option JVal
  masterUrlC : Option String
  filenameC : Option String
  apiIdx : Nat
  trace : List Request
deriving DecidableEq, Repr

/-- A fresh instance; `override` preloads `master_url` as the
`--from-master-url` assignment in `__main__` does. -/
def initDL (override : Option String) : DLState :=
  { guestToken := none, dynUrlC := none, masterUrlC := override,
    filenameC := none, apiIdx := 0, trace := [] }

/-- `TwspaceDL._guest_token` (a `cached_property`): fetch the landing
page and scrape the token, caching the result. -/
def getGuestToken (env : Env) (st : DLState) : Except PyErr String × DLState :=
  match st.guestToken with
  | some t => (.ok t, st)
  | none =>
    let st1 := { st with trace := st.trace ++ [.landing] }
    match guest_token_of env.landingText with
    | .ok t => (.ok t, { st1 with guestToken := some t })
    | .error e => (.error e, st1)

/-- `TwspaceDL.metadata` (a plain `property`, recomputed on every
access): build the headers (which forces the guest token), issue the
AudioSpaceById request, parse it and probe for the media key. -/
def getMetadata (env : Env) (idStr : String) (st : DLState) : Except PyErr JVal × DLState :=
  match getGuestToken env st with
  | (.error e, st1) => (.error e, st1)
  | (.ok _tok, st1) =>
    let st2 := { st1 with apiIdx := st1.apiIdx + 1,
                          trace := st1.trace ++ [.audioSpaceApi idStr] }
    match env.api st1.apiIdx with
    | none => (.error .jsonDecodeError, st2)
    | some resp => (metadataProperty resp, st2)

/-- `TwspaceDL.dyn_url` (a `cached_property`): re-access `metadata`,
then run the body modelled by `dyn_url_model`, recording the
live-status request when it is issued. -/
def getDynUrl (env : Env) (idStr : String) (st : DLState) : Except PyErr JVal × DLState :=
  match st.dynUrlC with
  | some v => (.ok v, st)
  | none =>
    match getMetadata env idStr st with
    | (.error e, st1) => (.error e, st1)
    | (.ok md, st1) =>
      match dyn_url_model md env.live with
      | (r, some mks) =>
        let st2 := { st1 with trace := st1.trace ++ [.liveStatus mks] }
        match r with
        | .ok v => (.ok v, { st2 with dynUrlC := some v })
        | .error e => (.error e, st2)
      | (r, none) => (r, st1)

/-- `TwspaceDL.master_url` (a `cached_property`, possibly overridden by
`--from-master-url` before first access). -/
def getMasterUrl (env : Env) (idStr : String) (st : DLState) : Except PyErr String × DLState :=
  match st.masterUrlC with
  | some u => (.ok u, st)
  | none =>
    match getDynUrl env idStr st with
    | (.error e, st1) => (.error e, st1)
    | (.ok d, st1) =>
      match master_url_of_dyn d with
      | .ok m => (.ok m, { st1 with masterUrlC := some m })
      | .error e => (.error e, st1)

/-- `TwspaceDL.playlist_url`: fetch the master playlist body, take the
line at index 3 (`IndexError` when there are fewer lines) and glue it to
the master URL authority. -/
def getPlaylistUrl (env : Env) (idStr : String) (st : DLState) : Except PyErr String × DLState :=
  match getMasterUrl env idStr st with
  | (.error e, st1) => (.error e, st1)
  | (.ok m, st1) =>
    let st2 := { st1 with trace := st1.trace ++ [.masterPl m] }
    let result : Except PyErr String :=
      match (pySplitlines env.masterBody.data)[3]? with
      | none => .error .indexError
      | some line => .ok ("https://" ++ netlocOf m ++ String.mk line)
    (result, st2)

/-- `TwspaceDL.playlist_text`: fetch the chunk playlist body and rewrite
it against the master URL stripped of "master_playlist.m3u8". -/
def getPlaylistText (env : Env) (idStr : String) (st : DLState) : Except PyErr String × DLState :=
  match getPlaylistUrl env idStr st with
  | (.error e, st1) => (.error e, st1)
  | (.ok pu, st1) =>
    let st2 := { st1 with trace := st1.trace ++ [.chunkPl pu] }
    match getMasterUrl env idStr st2 with
    | (.error e, st3) => (.error e, st3)
    | (.ok m, st3) =>
      (.ok (String.mk (playlist_transform m.data env.chunkBody.data)), st3)

/-- `TwspaceDL.filename` (a `cached_property`): re-access `metadata`,
normalize the fields and apply the `%`-format. -/
def getFilename (env : Env) (idStr fmtStr : String) (dr : Int → String) (st : DLState) :
    Except PyErr String × DLState :=
  match st.filenameC with
  | some f => (.ok f, st)
  | none =>
    match getMetadata env idStr st with
    | (.error e, st1) => (.error e, st1)
    | (.ok md, st1) =>
      match set_info dr md with
      | .error e => (.error e, st1)
      | .ok fi =>
        match FormatInfo_format fi fmtStr with
        | .error e => (.error e, st1)
        | .ok fn => (.ok fn, { st1 with filenameC := some fn })

/-- `TwspaceDL.download` up to the job lists it would hand to the worker
pool and the sequential `subprocess.run` calls: the eager
`shutil.which("ffmpeg")` check, the `metadata` access, the
`write_playlist("tmp")` chain (`filename` + `playlist_text`), the
`set_info` on the already-fetched metadata, the branch on `state`, and —
in the `"Running"` branch — the `self.dyn_url` access embedded in
`cmd_new`.  Returns the constructed `DownloadPlan` and the trace of all
HTTP requests issued. -/
def downloadTrace (ffmpegPresent : Bool) (idStr fmtStr : String) (override : Option String)
    (dr : Int → String) (env : Env) : Except PyErr DownloadPlan × List Request :=
  if ffmpegPresent = false then
    (.error (.fileNotFoundError "ffmpeg not installed"), [])
  else
    match getMetadata env idStr (initDL override) with
    | (.error e, st1) => (.error e, st1.trace)
    | (.ok md, st1) =>
      match getFilename env idStr fmtStr dr st1 with
      | (.error e, st2) => (.error e, st2.trace)
      | (.ok fn, st2) =>
        match getPlaylistText env idStr st2 with
        | (.error e, st3) => (.error e, st3.trace)
        | (.ok _pt, st3) =>
          match set_info dr md with
          | .error e => (.error e, st3.trace)
          | .ok fi =>
            match jpath md ["data", "audioSpace", "metadata", "state"] with
            | .error e => (.error e, st3.trace)
            | .ok stv =>
              if stv = .jstr "Running" then
                match getDynUrl env idStr st3 with
                | (.error e, st4) => (.error e, st4.trace)
                | (.ok d, st4) =>
                  (.ok (downloadPlan "Running" (pyStrOf fi.title) (pyStrOf fi.creator_name)
                          idStr fn (pyStrOf d)), st4.trace)
              else
                (.ok (downloadPlan "" (pyStrOf fi.title) (pyStrOf fi.creator_name)
                        idStr fn ""), st3.trace)

/-- Two consecutive accesses of the `metadata` property on a fresh
instance (what "resolving twice within one run" means for a plain
`property`). -/
def metadataTwice (env : Env) (idStr : String) : Except PyErr JVal × Except PyErr JVal :=
  match getMetadata env idStr (initDL none) with
  | (r1, st1) =>
    match getMetadata env idStr st1 with
    | (r2, _) => (r1, r2)

/-- Model of the fan-out at main.py lines 273-275,
`with ThreadPoolExecutor(max_workers=self.threads) as executor:
executor.map(subprocess.run, (cmd_new, cmd_old), timeout=60)`.
The relevant `concurrent.futures` semantics: `Executor.map` submits
every job immediately and returns a lazy result iterator; its `timeout`
can only raise when that iterator is consumed; leaving the `with` block
calls `shutdown(wait=True)`, which joins every submitted job.  `jobs`
holds the wall-clock duration of each submitted job and `consumed` the
number of results the caller takes from the iterator. -/
structure MapCall where
  jobs : List Nat
  timeout : Nat
  consumed : Nat
deriving DecidableEq, Repr

/-- How long the `with` block blocks at its exit: `shutdown(wait=True)`
joins all submitted jobs, with no deadline. -/
def blockingWait (m : MapCall) : Nat := m.jobs.foldr max 0

/-- Whether the `timeout` of the `map` call can take effect at all: a
`TimeoutError` is raised only inside the returned iterator, so only
when at least one result is consumed. -/
def timeoutCanFire (m : MapCall) : Bool := decide (0 < m.consumed)

/-- The concrete call the source makes: two jobs (`cmd_new`, `cmd_old`),
`timeout=60`, and the returned iterator is discarded, so `consumed = 0`. -/
def dualCaptureCall (dNew dOld : Nat) : MapCall :=
  { jobs := [dNew, dOld], timeout := 60, consumed := 0 }

/-- Wrap a metadata-fields object the way the AudioSpaceById response
nests it: `{"data": {"audioSpace": {"metadata": fields}}}`. -/
def wrapMeta (fields : JVal) : JVal :=
  .jobjCons "data" (.jobjCons "audioSpace" (.jobjCons "metadata" fields .jobjNil) .jobjNil)
    .jobjNil

/-- A complete metadata-fields object with the given lifecycle state. -/
def mdFields (state : String) : JVal :=
  .jobjCons "media_key" (.jstr "mk1")
    (.jobjCons "state" (.jstr state)
      (.jobjCons "rest_id" (.jstr "123")
        (.jobjCons "title" (.jstr "T")
          (.jobjCons "creator_results"
            (.jobjCons "result"
              (.jobjCons "legacy"
                (.jobjCons "name" (.jstr "N")
                  (.jobjCons "screen_name" (.jstr "S") .jobjNil))
                .jobjNil)
              .jobjNil)
            (.jobjCons "started_at" (.jnum 1600000000000) .jobjNil)))))

/-- A full response for a running broadcast. -/
def mdRunningMeta : JVal := wrapMeta (mdFields "Running")

/-- A full response for an ended broadcast. -/
def mdEndedMeta : JVal := wrapMeta (mdFields "Ended")

/-- A response with the media key present but `creator_results` absent
(every other documented field present). -/
def respNoCreator : JVal :=
  wrapMeta
    (.jobjCons "media_key" (.jstr "mk1")
      (.jobjCons "state" (.jstr "Running")
        (.jobjCons "rest_id" (.jstr "123")
          (.jobjCons "title" (.jstr "T")
            (.jobjCons "started_at" (.jnum 1600000000000) .jobjNil)))))

/-- A response with everything present except `title`. -/
def respNoTitle : JVal :=
  wrapMeta
    (.jobjCons "media_key" (.jstr "mk1")
      (.jobjCons "state" (.jstr "Running")
        (.jobjCons "rest_id" (.jstr "123")
          (.jobjCons "creator_results"
            (.jobjCons "result"
              (.jobjCons "legacy"
                (.jobjCons "name" (.jstr "N")
                  (.jobjCons "screen_name" (.jstr "S") .jobjNil))
                .jobjNil)
              .jobjNil)
            (.jobjCons "started_at" (.jnum 1600000000000) .jobjNil)))))

/-- A response whose metadata object lacks `media_key`. -/
def respNoMediaKey : JVal :=
  wrapMeta (.jobjCons "state" (.jstr "Running") .jobjNil)

/-- A landing page whose (single) last line carries a guest token. -/
def landingFix : String := "gt=1234567890123456789"

/-- An environment whose AudioSpaceById endpoint answers differently on
the first and on the second access. -/
def envAB : Env :=
  { landingText := landingFix,
    api := fun i => some (if i = 0 then mdRunningMeta else mdEndedMeta),
    live := none, masterBody := "", chunkBody := "" }

/-- An environment whose AudioSpaceById endpoint always answers with the
same body. -/
def envConstRunning : Env :=
  { landingText := landingFix, api := fun _ => some mdRunningMeta,
    live := none, masterBody := "", chunkBody := "" }

/-- The condition quantified over by claim C9, written from the claim
text (not from the source): the string contains an occurrence of
"spaces/" followed by at least one word character. -/
def containsSpacesFollowedByWord : List Char → Bool
  | [] => false
  | c :: cs =>
    (startsWith spacesTok (c :: cs)
        && (match (c :: cs).drop spacesTok.length with
            | d :: _ => isWordChar d
            | [] => false))
      || containsSpacesFollowedByWord cs

lemma startsWith_append_self (p t : List Char) : startsWith p (p ++ t) = true := by
  induction p with
  | nil => rfl
  | cons a ps ih => simp [startsWith, ih]

lemma startsWith_cons_ne (a b : Char) (ps l : List Char) (h : (a == b) = false) :
    startsWith (a :: ps) (b :: l) = false := by
  simp [startsWith, h]

lemma subBefore_skip (tok ins : List Char) :
    ∀ l m : List Char, (∀ i, i < l.length → startsWith tok ((l ++ m).drop i) = false) →
      subBefore tok ins (l ++ m) = l ++ subBefore tok ins m := by
  intro l
  induction l with
  | nil => intro m _; rfl
  | cons c cs ih =>
    intro m h
    have h0 : startsWith tok (c :: (cs ++ m)) = false := by
      simpa using h 0 (Nat.succ_pos _)
    have hrest : ∀ i, i < cs.length → startsWith tok ((cs ++ m).drop i) = false := by
      intro i hi
      simpa [List.drop_succ_cons] using h (i + 1) (Nat.succ_lt_succ hi)
    calc subBefore tok ins ((c :: cs) ++ m)
        = c :: subBefore tok ins (cs ++ m) := by
          simp [subBefore, h0]
      _ = c :: (cs ++ subBefore tok ins m) := by rw [ih m hrest]
      _ = (c :: cs) ++ subBefore tok ins m := rfl

lemma subBefore_no (tok ins l : List Char)
    (h : ∀ i, i < l.length → startsWith tok (l.drop i) = false) :
    subBefore tok ins l = l := by
  have h2 : ∀ i, i < l.length → startsWith tok ((l ++ []).drop i) = false := by
    simpa using h
  have := subBefore_skip tok ins l [] h2
  simpa [subBefore] using this

lemma subBefore_tok_head (tok ins m : List Char) (t : Char) (ts : List Char)
    (htok : tok = t :: ts)
    (hnest : ∀ i, i < ts.length → startsWith tok ((ts ++ m).drop i) = false) :
    subBefore tok ins (tok ++ m) = ins ++ tok ++ subBefore tok ins m := by
  subst htok
  have h1 : startsWith (t :: ts) (t :: (ts ++ m)) = true := startsWith_append_self _ _
  calc subBefore (t :: ts) ins ((t :: ts) ++ m)
      = ins ++ t :: subBefore (t :: ts) ins (ts ++ m) := by
        simp [subBefore, h1]
    _ = ins ++ t :: (ts ++ subBefore (t :: ts) ins m) := by
        rw [subBefore_skip _ _ ts m hnest]
    _ = ins ++ (t :: ts) ++ subBefore (t :: ts) ins m := by simp

lemma subBefore_chunkTok (ins m : List Char) :
    subBefore chunkTok ins (chunkTok ++ m) = ins ++ chunkTok ++ subBefore chunkTok ins m := by
  refine subBefore_tok_head chunkTok ins m 'c' ['h', 'u', 'n', 'k'] rfl ?_
  intro i hi
  have hi4 : i < 4 := by simpa using hi
  interval_cases i
  · exact startsWith_cons_ne _ _ _ _ (by decide)
  · exact startsWith_cons_ne _ _ _ _ (by decide)
  · exact startsWith_cons_ne _ _ _ _ (by decide)
  · exact startsWith_cons_ne _ _ _ _ (by decide)

lemma pyReplace_skip (old new : List Char) :
    ∀ l m : List Char, (∀ i, i < l.length → startsWith old ((l ++ m).drop i) = false) →
      pyReplace old new (l ++ m) = l ++ pyReplace old new m := by
  intro l
  induction l with
  | nil => intro m _; rfl
  | cons c cs ih =>
    intro m h
    have h0 : startsWith old (c :: (cs ++ m)) = false := by
      simpa using h 0 (Nat.succ_pos _)
    have hrest : ∀ i, i < cs.length → startsWith old ((cs ++ m).drop i) = false := by
      intro i hi
      simpa [List.drop_succ_cons] using h (i + 1) (Nat.succ_lt_succ hi)
    calc pyReplace old new ((c :: cs) ++ m)
        = c :: pyReplace old new (cs ++ m) := by
          simp [pyReplace, h0]
      _ = c :: (cs ++ pyReplace old new m) := by rw [ih m hrest]
      _ = (c :: cs) ++ pyReplace old new m := rfl

lemma pyReplace_no (old new l : List Char)
    (h : ∀ i, i < l.length → startsWith old (l.drop i) = false) :
    pyReplace old new l = l := by
  have h2 : ∀ i, i < l.length → startsWith old ((l ++ []).drop i) = false := by
    simpa using h
  have := pyReplace_skip old new l [] h2
  simpa [pyReplace] using this

lemma pyReplace_head (old new m : List Char) (t : Char) (ts : List Char)
    (htok : old = t :: ts) :
    pyReplace old new (old ++ m) = new ++ pyReplace old new m := by
  subst htok
  have h1 : startsWith (t :: ts) (t :: (ts ++ m)) = true := startsWith_append_self _ _
  have h2 : (ts ++ m).drop ((t :: ts).length - 1) = m := by
    simp [List.drop_left]
  simp [pyReplace, h1, h2]

lemma removesuffix_append (u suf : List Char) : removesuffix (u ++ suf) suf = u := by
  have h1 : startsWith suf.reverse (suf.reverse ++ u.reverse) = true :=
    startsWith_append_self _ _
  simp [removesuffix, List.reverse_append, h1, List.length_append,
    Nat.add_sub_cancel, List.take_left]

lemma firstSpaceId_none :
    ∀ l : List Char, (∀ i, i < l.length → startsWith spacesTok (l.drop i) = false) →
      firstSpaceId l = none := by
  intro l
  induction l with
  | nil => intro _; rfl
  | cons c cs ih =>
    intro h
    have h0 : startsWith spacesTok (c :: cs) = false := by
      simpa using h 0 (Nat.succ_pos _)
    have step : firstSpaceId (c :: cs) = firstSpaceId cs := by
      simp [firstSpaceId, h0]
    rw [step]
    exact ih (fun i hi => by
      simpa [List.drop_succ_cons] using h (i + 1) (Nat.succ_lt_succ hi))

/-- Claim C1: for a run whose resolved lifecycle state is "Running",
`download` builds exactly two parallel capture jobs — `cmd_new` sourced
from the live dynamic URL (argument after "-i", index 6) and `cmd_old`
sourced from the local rewritten playlist file (argument after "-i",
index 8) — and exactly one sequential concatenation job whose single
pseudo-input at index 6 is the literal expression
"concat:<histOut>|<liveOut>", where `<histOut>` is the historical job's
output (the last argument of `cmd_old`) and `<liveOut>` the live-edge
job's output (the last argument of `cmd_new`), in that fixed order.
`downloadPlan` is a pure function of its arguments, so the plan — and
hence the order — is the same on every run with the same resolved
values. -/
theorem running_state_dual_capture_plan (title creator idStr fn dyn : String) :
    (downloadPlan "Running" title creator idStr fn dyn).parallel.length = 2 ∧
    (downloadPlan "Running" title creator idStr fn dyn).sequential.length = 1 ∧
    (((downloadPlan "Running" title creator idStr fn dyn).parallel[0]?).getD [])[6]?
      = some dyn ∧
    (((downloadPlan "Running" title creator idStr fn dyn).parallel[1]?).getD [])[8]?
      = some ("tmp/" ++ fn ++ ".m3u8") ∧
    (((downloadPlan "Running" title creator idStr fn dyn).parallel[1]?).getD []).getLast?
      = some ("tmp/" ++ fn ++ ".m4a") ∧
    (((downloadPlan "Running" title creator idStr fn dyn).parallel[0]?).getD []).getLast?
      = some ("tmp/" ++ fn ++ "_new.m4a") ∧
    (((downloadPlan "Running" title creator idStr fn dyn).sequential[0]?).getD [])[6]?
      = some ("concat:" ++ ("tmp/" ++ fn ++ ".m4a") ++ "|" ++ ("tmp/" ++ fn ++ "_new.m4a")) :=
  ⟨rfl, rfl, rfl, rfl, rfl, rfl, rfl⟩

/-- Claim C2 (code bug): the `timeout=60` handed to `executor.map` at
main.py line 274 can never take effect, because the timeout of
`Executor.map` is only checked when the returned result iterator is
consumed and the source discards that iterator (`consumed = 0`); the
`with` block then joins both jobs without any deadline, so a live-edge
job running for 1000000 time units makes the fan-in point block for the
full 1000000, far beyond the 60-unit budget the claim asserts. -/
theorem dual_capture_timeout_ineffective :
    timeoutCanFire (dualCaptureCall 1000000 5) = false ∧
    (dualCaptureCall 1000000 5).timeout = 60 ∧
    blockingWait (dualCaptureCall 1000000 5) = 1000000 ∧
    (dualCaptureCall 1000000 5).timeout < blockingWait (dualCaptureCall 1000000 5) := by
  decide

/-- Claim C3: for metadata whose lifecycle state is "Ended" and no
master-URL override, derivation fails with `ValueError("Space Ended")`
and the live-status endpoint is never fetched (second component `none`);
with an override, the live-status step is skipped entirely and the
resolved master URL is the override. -/
theorem ended_state_and_override_short_circuit :
    (∀ md live, jpath md ["data", "audioSpace", "metadata", "state"] = .ok (.jstr "Ended") →
       master_url_resolved none md live = (.error (.valueError "Space Ended"), none)) ∧
    (∀ md live u, master_url_resolved (some u) md live = (.ok u, none)) := by
  constructor
  · intro md live h
    simp [master_url_resolved, dyn_url_model, h]
  · intro md live u
    rfl

/-- Witness for C3 at a concrete ended-broadcast response. -/
theorem ended_state_and_override_short_circuit_witness :
    master_url_resolved none mdEndedMeta none = (.error (.valueError "Space Ended"), none) ∧
    master_url_resolved (some "https://m") mdEndedMeta none = (.ok "https://m", none) :=
  ⟨ended_state_and_override_short_circuit.1 mdEndedMeta none (by rfl),
   ended_state_and_override_short_circuit.2 mdEndedMeta none "https://m"⟩

/-- Claim C4: on fresh input whose only "chunk" occurrences are the
three tokens, the playlist rewrite inserts exactly one copy of the base
prefix (the master URL with its trailing "master_playlist.m3u8"
removed) immediately before each token, and changes nothing else. -/
theorem playlist_rewrite_three_tokens (murl a b c d : List Char)
    (ha : ∀ i, i < a.length →
      startsWith chunkTok ((a ++ chunkTok ++ b ++ chunkTok ++ c ++ chunkTok ++ d).drop i)
        = false)
    (hb : ∀ i, i < b.length →
      startsWith chunkTok ((b ++ chunkTok ++ c ++ chunkTok ++ d).drop i) = false)
    (hc : ∀ i, i < c.length →
      startsWith chunkTok ((c ++ chunkTok ++ d).drop i) = false)
    (hd : ∀ i, i < d.length → startsWith chunkTok (d.drop i) = false) :
    playlist_transform murl (a ++ chunkTok ++ b ++ chunkTok ++ c ++ chunkTok ++ d)
      = a ++ removesuffix murl mplTok ++ chunkTok
          ++ b ++ removesuffix murl mplTok ++ chunkTok
          ++ c ++ removesuffix murl mplTok ++ chunkTok ++ d := by
  unfold playlist_transform
  simp only [List.append_assoc] at ha hb hc ⊢
  rw [subBefore_skip chunkTok (removesuffix murl mplTok) a _ ha]
  rw [subBefore_chunkTok]
  rw [subBefore_skip chunkTok (removesuffix murl mplTok) b _ hb]
  rw [subBefore_chunkTok]
  rw [subBefore_skip chunkTok (removesuffix murl mplTok) c _ hc]
  rw [subBefore_chunkTok]
  rw [subBefore_no chunkTok (removesuffix murl mplTok) d hd]
  simp only [List.append_assoc]

/-- Witness for C4 on a literal three-token fixture. -/
theorem playlist_rewrite_three_tokens_witness :
    playlist_transform "https://h/master_playlist.m3u8".data
        ("#EXTM3U\n".data ++ chunkTok ++ "_0.ts\n".data ++ chunkTok ++ "_1.ts\n".data
          ++ chunkTok ++ "_2.ts\n".data)
      = "#EXTM3U\n".data ++ removesuffix "https://h/master_playlist.m3u8".data mplTok
          ++ chunkTok ++ "_0.ts\n".data
          ++ removesuffix "https://h/master_playlist.m3u8".data mplTok
          ++ chunkTok ++ "_1.ts\n".data
          ++ removesuffix "https://h/master_playlist.m3u8".data mplTok
          ++ chunkTok ++ "_2.ts\n".data :=
  playlist_rewrite_three_tokens _ _ _ _ _ (by decide) (by decide) (by decide) (by decide)

/-- Claim C5: a dynamic URL of the shape `<pre>dynamic<post>?type=live`
whose only "dynamic" occurrence is the designated one is transformed to
`<pre>master<post>`: the fixed query suffix is removed, "dynamic"
becomes "master", and no other character changes. -/
theorem master_url_textual_transform (pre post : List Char)
    (hpre : ∀ i, i < pre.length →
      startsWith dynTok ((pre ++ dynTok ++ post).drop i) = false)
    (hpost : ∀ i, i < post.length → startsWith dynTok (post.drop i) = false) :
    master_url_of (pre ++ dynTok ++ post ++ qSuffix) = pre ++ masterTok ++ post := by
  unfold master_url_of
  have h1 : removesuffix (pre ++ dynTok ++ post ++ qSuffix) qSuffix = pre ++ dynTok ++ post := by
    have h2 := removesuffix_append (pre ++ dynTok ++ post) qSuffix
    simpa [List.append_assoc] using h2
  rw [h1]
  simp only [List.append_assoc] at hpre ⊢
  rw [pyReplace_skip dynTok masterTok pre _ hpre]
  rw [pyReplace_head dynTok masterTok post 'd' ['y', 'n', 'a', 'm', 'i', 'c'] rfl]
  rw [pyReplace_no dynTok masterTok post hpost]

/-- Witness for C5 on a concrete dynamic URL. -/
theorem master_url_textual_transform_witness :
    master_url_of ("https://h/".data ++ dynTok ++ "_playlist.m3u8".data ++ qSuffix)
      = "https://h/".data ++ masterTok ++ "_playlist.m3u8".data :=
  master_url_textual_transform _ _ (by decide) (by decide)

/-- Claim C6, counterexample: a response that resolves fine (media key
present) but lacks the non-mandatory `creator_results` field makes
`set_info` raise `TypeError` (indexing the defaulted empty string with
`["result"]`) instead of defaulting the creator fields to empty values. -/
theorem missing_creator_results_not_defaulted :
    metadataProperty respNoCreator = .ok respNoCreator ∧
    set_info (fun _ => "") respNoCreator = .error .typeError :=
  ⟨rfl, rfl⟩

/-- Claim C6, amended: when the media-key lookup raises `KeyError`, the
`metadata` property fails with `RuntimeError` carrying the raw response,
and the derivation chain therefore never runs (no live-status request);
an individually missing top-level scalar field such as `title` does
default to the empty string — but (per the counterexample) a missing
`creator_results` raises instead of defaulting. -/
theorem media_key_mandatory_and_shallow_defaults (resp : JVal) (live : Option JVal)
    (k : String)
    (h : jpath resp ["data", "audioSpace", "metadata", "media_key"] = .error (.keyError k)) :
    metadataProperty resp = .error (.runtimeErrorJson resp) ∧
    resolveThenDerive resp live = (.error (.runtimeErrorJson resp), none) ∧
    (set_info (fun _ => "") respNoTitle).map (fun fi => fi.title) = .ok (.jstr "") := by
  have h1 : metadataProperty resp = .error (.runtimeErrorJson resp) := by
    unfold metadataProperty
    rw [h]
  refine ⟨h1, ?_, rfl⟩
  unfold resolveThenDerive
  rw [h1]

/-- Witness for the amended C6 at a concrete media-key-less response. -/
theorem media_key_mandatory_and_shallow_defaults_witness :
    metadataProperty respNoMediaKey = .error (.runtimeErrorJson respNoMediaKey) ∧
    resolveThenDerive respNoMediaKey none = (.error (.runtimeErrorJson respNoMediaKey), none) ∧
    (set_info (fun _ => "") respNoTitle).map (fun fi => fi.title) = .ok (.jstr "") :=
  media_key_mandatory_and_shallow_defaults respNoMediaKey none "media_key" (by rfl)

/-- Claim C7: when the external muxing tool is absent, `download` fails
with `FileNotFoundError("ffmpeg not installed")` and the request trace
is empty — the eager `shutil.which("ffmpeg")` check at the top of
`download` runs before any network work, whatever the environment. -/
theorem muxer_checked_before_any_network (idStr fmtStr : String) (override : Option String)
    (dr : Int → String) (env : Env) :
    downloadTrace false idStr fmtStr override dr env
      = (.error (.fileNotFoundError "ffmpeg not installed"), []) :=
  rfl

/-- Claim C8, counterexample: `metadata` is a plain `property`, not a
`cached_property`, so each access issues a fresh AudioSpaceById request;
in an environment whose endpoint answers "Running" first and "Ended"
second, the two accesses of one run return different snapshots. -/
theorem metadata_refetched_each_access :
    (metadataTwice envAB "sid").1 = .ok mdRunningMeta ∧
    (metadataTwice envAB "sid").2 = .ok mdEndedMeta ∧
    mdRunningMeta ≠ mdEndedMeta :=
  ⟨rfl, rfl, by decide⟩

/-- Claim C8, amended: the two accesses agree exactly when the upstream
endpoint serves the same body both times — for any environment whose
AudioSpaceById endpoint is constant, resolving twice yields identical
results (the guest token, which IS cached, contributes the same value to
both accesses). -/
theorem metadata_consistent_under_constant_api (env : Env) (idStr : String)
    (r : Option JVal) (h : env.api = fun _ => r) :
    (metadataTwice env idStr).1 = (metadataTwice env idStr).2 := by
  cases hg : guest_token_of env.landingText with
  | error e => simp [metadataTwice, getMetadata, getGuestToken, initDL, hg, h]
  | ok t =>
    cases r with
    | none => simp [metadataTwice, getMetadata, getGuestToken, initDL, hg, h]
    | some resp => simp [metadataTwice, getMetadata, getGuestToken, initDL, hg, h]

/-- Witness for the amended C8 on a constant environment. -/
theorem metadata_consistent_under_constant_api_witness :
    (metadataTwice envConstRunning "sid").1 = (metadataTwice envConstRunning "sid").2 :=
  metadata_consistent_under_constant_api envConstRunning "sid" (some mdRunningMeta) rfl

/-- Claim C9, counterexample: the url
"https://twitter.com/spaces/" is non-empty and contains no substring
"spaces/" followed by a word character, yet construction does not raise
`IndexError`: the zero-width `\w*` still matches right after "spaces/",
`findall` returns the empty string, and the downloader is built with an
empty id. -/
theorem init_spaces_no_word_char_no_indexerror :
    containsSpacesFollowedByWord "https://twitter.com/spaces/".data = false ∧
    "https://twitter.com/spaces/" ≠ "" ∧
    TwspaceDL_init "https://twitter.com/spaces/" 1 ""
      = .ok { id := "", format_str := DEFAULT_FNAME_FORMAT, threads := 1 } :=
  ⟨by decide, by decide, rfl⟩

/-- Claim C9, amended: construction fails with an uncaught `IndexError`
exactly on the non-empty urls with no occurrence of the literal
"spaces/" at all (when "spaces/" occurs but no word character follows,
the id instead becomes the empty string, per the counterexample). -/
theorem init_without_spaces_token_raises (url : String) (threads : Nat) (fmtStr : String)
    (h1 : url ≠ "")
    (h2 : ∀ i, i < url.data.length → startsWith spacesTok (url.data.drop i) = false) :
    TwspaceDL_init url threads fmtStr = .error .indexError := by
  unfold TwspaceDL_init
  rw [if_neg h1]
  rw [firstSpaceId_none url.data h2]

/-- Witness for the amended C9 at a concrete url without "spaces/". -/
theorem init_without_spaces_token_raises_witness :
    TwspaceDL_init "https://example.org/live" 2 "" = .error .indexError :=
  init_without_spaces_token_raises "https://example.org/live" 2 "" (by decide) (by decide)

/-- Claim C10: `sterilize_fn` is the identity — each
`filename.replace(char, "_")` result is discarded, so no forbidden
filesystem character is ever substituted. -/
theorem sterilize_fn_is_identity (s : String) : sterilize_fn s = s :=
  rfl
